import Mathlib

set_option maxRecDepth 40000

/-!
Shallow embedding of the valuation pipeline of the `ai-valuation-api`
repository (FastAPI service under `src/app`), together with proofs settling
the frozen claims about its specification.

Modelling conventions:
* Python `float` values are modelled as exact rationals (`ℚ`).  No claim in
  scope depends on IEEE-754 rounding of intermediate results.
* Python `int(x)` (truncation toward zero) is `pyInt`, Python `round`
  (banker's rounding, round-half-to-even) is `pyRound`.
* Fallible Python code (raising exceptions) is modelled with `Except`.
* Library primitives that are not repository code (`hashlib.sha256`,
  `math.sin`, the network clients behind the provider interfaces, the
  pickled sklearn regressor, the OpenAI completion endpoint) are taken as
  function parameters: every claim in scope depends only on them being
  fixed functions of their inputs, never on particular output values.
-/

/-- Python whitespace test used by `str.strip` / `str.split` (ASCII part). -/
def pyIsSpace (c : Char) : Bool :=
  c = ' ' || c = '\t' || c = '\n' || c = '\r' || c = '\x0b' || c = '\x0c'

/-- Python `str.strip()`: drop leading and trailing whitespace. -/
def pyStrip (s : String) : String :=
  String.mk (((s.data.dropWhile pyIsSpace).reverse.dropWhile pyIsSpace).reverse)

/-- Python `str.lower()` (ASCII fragment, which covers every address the
service manipulates in the claims). -/
def pyLower (s : String) : String :=
  String.mk (s.data.map Char.toLower)

/-- Python `str.split()` with no separator: split on whitespace runs and
drop empty pieces. -/
def pySplit (s : String) : List String :=
  (s.split pyIsSpace).filter (fun t => t ≠ "")

/-- Embedding of `normalize_address` from `src/app/core/utils.py`:
`" ".join(addr.strip().lower().split())`. -/
def normalize_address (addr : String) : String :=
  String.intercalate " " (pySplit (pyLower (pyStrip addr)))

/-- Python `pat in s` substring test. -/
def strContains (s pat : String) : Bool :=
  2 ≤ (s.splitOn pat).length

/-- Python `int(x)` on a float/rational: truncation toward zero. -/
def pyInt (q : ℚ) : Int :=
  if 0 ≤ q then ⌊q⌋ else ⌈q⌉

/-- Python `round(x)`: round half to even (banker's rounding). -/
def pyRound (q : ℚ) : Int :=
  let f := ⌊q⌋
  let r := q - f
  if r < 1/2 then f
  else if 1/2 < r then f + 1
  else if f % 2 = 0 then f else f + 1

/-- Python `round(x, 1)`: one decimal digit, round half to even. -/
def round1 (q : ℚ) : ℚ :=
  (pyRound (q * 10) : ℚ) / 10

/-- Python `f"{x:.1f}"` for a nonnegative value, as used for the trend
insight string. -/
def fmt1 (q : ℚ) : String :=
  let t : Int := pyRound (q * 10)
  toString (t / 10) ++ "." ++ toString (t % 10)

/-- Embedding of `fnv1a_32` from `src/app/core/utils.py`: FNV-1a over the
UTF-8 bytes, truncated to 32 bits at each step. -/
def fnv1a_32 (s : String) : Nat :=
  s.toUTF8.toList.foldl (fun h c => ((h ^^^ c.toNat) * 0x01000193) % 2 ^ 32) 0x811c9dc5

/-- One step of the Mulberry32-like generator in `seeded_rand`
(`src/app/core/utils.py`).  Returns the carried state (which Python leaves
unmasked after the augmented assignment) and the emitted value in [0, 1). -/
def seededRandStep (t : Nat) : Nat × ℚ :=
  let t1 := ((t ^^^ (t >>> 15)) * (t ||| 1)) &&& 0xFFFFFFFF
  let t2 := t1 ^^^ (t1 + (((t1 ^^^ (t1 >>> 7)) * (t1 ||| 61)) &&& 0xFFFFFFFF))
  (t2, (((t2 ^^^ (t2 >>> 14)) &&& 0xFFFFFFFF : Nat) : ℚ) / 4294967296)

/-- Iterated generator core of `seeded_rand`. -/
def seededRandGo : Nat → Nat → List ℚ
  | _, 0 => []
  | t, n + 1 =>
    let (t2, r) := seededRandStep t
    r :: seededRandGo t2 n

/-- Embedding of `seeded_rand(seed, n)` from `src/app/core/utils.py`. -/
def seeded_rand (seed : Nat) (n : Nat) : List ℚ :=
  seededRandGo ((seed + 0x6D2B79F5) &&& 0xFFFFFFFF) n

/-- Embedding of `money_band` from `src/app/core/utils.py`: a seed-derived
spread of 5 to 12 percent around the base. -/
def money_band (base : Int) (seed : Nat) : Int × Int :=
  let spread : ℚ := 5/100 + ((seeded_rand (seed + 1) 1).headD 0) * (7/100)
  (pyRound ((base : ℚ) * (1 - spread)), pyRound ((base : ℚ) * (1 + spread)))

/-- External primitives of the source that are not repository code:
`math.sin` (used only by the visual sparkline) and the 24-hex-character
`hashlib.sha256` digest behind `weak_etag`.  Each claim involving them
depends only on them being fixed functions. -/
structure Prims where
  sinQ : ℚ → ℚ
  digest : String → String

/-- Embedding of `sparkline` from `src/app/core/utils.py`: twelve visual
index points derived from the seed. -/
def sparkline (P : Prims) (seed : Nat) : List Int :=
  (List.range 12).map fun (i : Nat) =>
    let v : ℚ := 50 + P.sinQ (((i : ℚ) + 1) * (6/10) + ((seed % 10 : Nat) : ℚ)) * 10
      + ((seeded_rand (seed + i) 1).headD 0) * 14
    pyRound (max 0 (min 100 v))

/-- Embedding of `weak_etag` from `src/app/core/utils.py`: the string
`W/"<digest>"` where the digest is the truncated SHA-256 of the payload
bytes, taken here as the `digest` primitive. -/
def weak_etag (digest : String → String) (payloadBytes : String) : String :=
  "W/\"" ++ digest payloadBytes ++ "\""

/-!  Data shapes from `src/app/data/base.py` and the candidate dictionaries
returned by `ValuationService.identify_property`. -/

/-- One address candidate produced by the Address Resolver
(`identify_property` in `src/app/services/valuation_service.py`).  The
`confidence` and `property_type` dictionary keys may be absent, hence
`Option`; `candidates[0].get("confidence", 0)` is `confidence.getD 0`. -/
structure Candidate where
  address : String
  confidence : Option ℚ
  property_type : Option String
deriving DecidableEq

/-- `GeoPoint` from `src/app/data/base.py`. -/
structure GeoPoint where
  lat : ℚ
  lon : ℚ
deriving DecidableEq

/-- `GeoArea` from `src/app/data/base.py`. -/
structure GeoArea where
  name : String
  code : Option String
deriving DecidableEq

/-- `GeocodeResult` from `src/app/data/base.py` (the `country` field is
never read by the pipeline and is kept for fidelity). -/
structure GeocodeResult where
  point : GeoPoint
  area : GeoArea
  city : String
  province : String
  country : String := "Canada"
deriving DecidableEq

/-- `ComparableSale` from `src/app/data/base.py`; `sale_date` is carried as
an ordinal day number. -/
structure ComparableSale where
  distance_km : ℚ
  sale_price : Int
  sale_date : Int
  beds : Option Int
  baths : Option ℚ
  living_sqft : Option Int
  property_type : Option String
deriving DecidableEq

/-- `AreaTrendPoint` from `src/app/data/base.py`; the date is an ordinal. -/
structure AreaTrendPoint where
  date : Int
  index : ℚ
deriving DecidableEq

/-- The feature dictionary built in `ValuationService.value_address` and
passed to `model.predict`.  Every field mirrors one key of that dictionary.
The source never inserts a `signal_quality` key (the computed score is
dropped on the floor), so that key is modelled as an `Option` that the
orchestrator leaves `none`; `MockModel.predict` reads it with
`features.get("signal_quality", 0)`. -/
structure Features where
  address_norm : String
  lat : ℚ
  lon : ℚ
  area_name : String
  area_code : Option String
  city : String
  province : String
  property_type : String
  trend_mom_pct : ℚ
  comps_count : Nat
  comps_avg_price : Int
  beds_median : ℚ
  baths_median : ℚ
  sqft_median : ℚ
  insights : List String
  signal_quality : Option ℚ := none
deriving DecidableEq

/-- The estimate dictionary every strategy returns (`base`, `low`, `high`,
`confidence`, `trend_mom_pct`, `comps`, `insights`, `sparkline`,
`factors`), per `src/app/models/base.py`. -/
structure ModelOut where
  base : Int
  low : Int
  high : Int
  confidence : Int
  trend_mom_pct : ℚ
  comps : Int
  insights : List String
  sparkline : List Int
  factors : List (String × ℚ)
deriving DecidableEq

/-- Embedding of `statistics.median`: sort ascending; odd length takes the
middle element, even length averages the two middle elements, and the
empty list raises `StatisticsError`, modelled as `none`. -/
def pyMedian (l : List ℚ) : Option ℚ :=
  let s := l.insertionSort (· ≤ ·)
  let n := s.length
  if n = 0 then none
  else if n % 2 = 1 then some (s.getD (n / 2) 0)
  else some ((s.getD (n / 2 - 1) 0 + s.getD (n / 2) 0) / 2)

/-- The signal-quality score computed (but never forwarded) in
`ValuationService.value_address`:
`min(30, (len(comps) * 4) + (abs(trend_mom_pct) // 0.5))`. -/
def signal_quality (compsCount : Nat) (trendMomPct : ℚ) : ℚ :=
  min 30 ((compsCount * 4 : Nat) + ((⌊|trendMomPct| / (1/2)⌋ : Int) : ℚ))

/-!  Valuation strategies, from `src/app/models`. -/

/-- Embedding of `MockModel.predict` (`src/app/models/mock_model.py`): the
deterministic heuristic strategy.  Every `features.get(key, default)` of the
source reads a `Features` field; `signal_quality` is the only key the
orchestrator never provides, hence the `getD 0`. -/
def mockPredict (P : Prims) (f : Features) : ModelOut :=
  let seed := fnv1a_32 f.address_norm
  let base_seed : Int := pyInt (350000 + ((seeded_rand seed 1).headD 0) * 1850000)
  let comps_avg : Int := f.comps_avg_price
  let trend_pct : ℚ := f.trend_mom_pct
  let blended : Int :=
    pyInt ((6/10) * (base_seed : ℚ) + (35/100) * (comps_avg : ℚ) * (1 + trend_pct / 100)
      + (5/100) * (base_seed : ℚ))
  let band := money_band blended seed
  let confidence : Int := pyInt (60 + min 30 (max 0 (f.signal_quality.getD 0)))
  let comps : Int := (f.comps_count : Int)
  let insights :=
    if f.insights.isEmpty then
      [if 4 ≤ comps then "Comparable activity supports the estimate."
       else "Limited recent comps in radius."]
    else f.insights
  { base := blended
    low := band.1
    high := band.2
    confidence := confidence
    trend_mom_pct := round1 trend_pct
    comps := comps
    insights := insights
    sparkline := sparkline P seed
    factors := [("comps_weight", 45/100), ("trend_weight", 20/100),
                ("locality_weight", 20/100), ("property_weight", 15/100)] }

/-- Embedding of `LLMModel.predict` (`src/app/models/llm_model.py`): the
generic-model variant delegates to the heuristic strategy and appends one
insight line. -/
def llmPredict (P : Prims) (f : Features) : ModelOut :=
  let out := mockPredict P f
  { out with insights := out.insights ++
      ["LLM synthesis: combined comps, trend, and locality signals to adjust the estimate."] }

/-- Embedding of `SklearnRegressor.predict` (`src/app/models/ml_model.py`).
The pickled regressor is not repository code; it enters as the function
`m` from the feature record to the predicted value `y`. -/
def sklearnPredict (m : Features → ℚ) (f : Features) : ModelOut :=
  let y : ℚ := m f
  let low : Int := pyInt (y * (92/100))
  let high : Int := pyInt (y * (108/100))
  let confidence : Int := 70 + min 15 (pyInt (max 0 ((f.comps_count : Int) : ℚ)))
  { base := pyInt y
    low := low
    high := high
    confidence := min confidence 95
    trend_mom_pct := round1 f.trend_mom_pct
    comps := (f.comps_count : Int)
    insights := f.insights
    sparkline := []
    factors := [("comps_weight", 40/100), ("trend_weight", 25/100),
                ("locality_weight", 20/100), ("property_weight", 15/100)] }

/-- The JSON object parsed from the hosted-LLM completion in
`OpenAIModel.predict` (`src/app/models/openai_model.py`).  Each expected
key may be absent, hence `Option`. -/
structure OpenAIData where
  base : Option Int
  low : Option Int
  high : Option Int
  confidence : Option Int
  trend_mom_pct : Option ℚ
  comps : Option Int
  insights : Option (List String)
  sparkline : Option (List Int)
  factors : Option (List (String × ℚ))
deriving DecidableEq

/-- Embedding of `OpenAIModel.predict`: the remote completion (a primitive,
taken as the `respond` parameter, which may itself fail for network or JSON
reasons) is validated for key presence only and then returned as-is. -/
def openaiPredict (respond : Features → Except String OpenAIData)
    (f : Features) : Except String ModelOut :=
  match respond f with
  | .error e => .error e
  | .ok d =>
    match d.base, d.low, d.high, d.confidence, d.trend_mom_pct,
          d.comps, d.insights, d.sparkline, d.factors with
    | some b, some l, some h, some c, some t, some cm, some ins, some sp, some fa =>
      .ok { base := b, low := l, high := h, confidence := c, trend_mom_pct := t,
            comps := cm, insights := ins, sparkline := sp, factors := fa }
    | _, _, _, _, _, _, _, _, _ => .error "Malformed response missing keys"

/-- The model slot of `ValuationService` after construction. -/
inductive ModelChoice where
  | mock
  | ml (m : Features → ℚ)
  | llm
  | openai (respond : Features → Except String OpenAIData)

/-- Embedding of the model-selection part of `ValuationService.__init__`
(`src/app/services/valuation_service.py`): the `ml` provider falls back to
the heuristic `MockModel` when loading the artifact raises, and the
`openai` provider asserts that an API key is configured. -/
def initModel (provider : String) (loadArtifact : Except Unit (Features → ℚ))
    (respond : Features → Except String OpenAIData) (apiKeySet : Bool) :
    Except Unit ModelChoice :=
  if provider = "ml" then
    match loadArtifact with
    | .ok m => .ok (.ml m)
    | .error _ => .ok .mock
  else if provider = "llm" then .ok .llm
  else if provider = "openai" then
    if apiKeySet then .ok (.openai respond) else .error ()
  else .ok .mock

/-- Dispatch `self.model.predict(features)` for a constructed service. -/
def ModelChoice.runPredict (P : Prims) : ModelChoice → Features → Except String ModelOut
  | .mock, f => .ok (mockPredict P f)
  | .ml m, f => .ok (sklearnPredict m f)
  | .llm, f => .ok (llmPredict P f)
  | .openai r, f => openaiPredict r f

/-!  Orchestrator (`ValuationService.value_address`,
`src/app/services/valuation_service.py`) and the transport step that sets
the response fields (`src/app/routers/valuation.py`). -/

/-- Errors `value_address` can raise: the HTTP 400 of the disambiguation
gate, and the `StatisticsError` escaping `statistics.median([])`. -/
inductive VErr where
  | invalidInput
  | statisticsError
deriving DecidableEq

/-- Provider-call events, used to record in which order the awaited
provider coroutines start and finish.  A plain `await call()` runs the
call to completion before the next statement starts. -/
inductive Ev where
  | geoStart
  | geoEnd
  | compsStart
  | compsEnd
  | trendsStart
  | trendsEnd
deriving DecidableEq

/-- The provider-call trace of the cache-miss path: sequential awaits, so
the comparables call completes before the trends call starts. -/
def missTrace : List Ev :=
  [.geoStart, .geoEnd, .compsStart, .compsEnd, .trendsStart, .trendsEnd]

/-- The final API payload assembled by `value_address` (step 5 of the
source).  `range` is flattened into `low`/`high`; there is no `etag`
field: the transport layer adds that key after the ETag is computed. -/
structure Payload where
  address : String
  currency : String
  valuation : Int
  low : Int
  high : Int
  confidence : Int
  trend_mom_pct : ℚ
  comparables_used : Int
  insights : List String
  sparkline_index_12m : List Int
  factors : List (String × ℚ)
  disclaimer : String
  cached : Bool
deriving DecidableEq

/-- Deterministic serialization of the payload, modelling
`json.dumps(payload, separators=(",", ":"))`: fixed field order, no
whitespace.  `json.loads` inverts it exactly on these payloads, so the
cache is modelled as holding the payload structurally; note that the
serialized form carries the `cached` field of the payload (always `false`
when stored) and no `etag` field at all. -/
def serializePayload (p : Payload) : String :=
  "address:" ++ p.address ++
  "|currency:" ++ p.currency ++
  "|valuation:" ++ toString p.valuation ++
  "|range.low:" ++ toString p.low ++
  "|range.high:" ++ toString p.high ++
  "|confidence:" ++ toString p.confidence ++
  "|trend_mom_pct:" ++ toString p.trend_mom_pct.num ++ "/" ++ toString p.trend_mom_pct.den ++
  "|comparables_used:" ++ toString p.comparables_used ++
  "|insights:" ++ String.intercalate "," p.insights ++
  "|sparkline_index_12m:" ++ String.intercalate "," (p.sparkline_index_12m.map toString) ++
  "|factors:" ++ String.intercalate ","
      (p.factors.map fun kv => kv.1 ++ "=" ++ toString kv.2.num ++ "/" ++ toString kv.2.den) ++
  "|disclaimer:" ++ p.disclaimer ++
  "|cached:" ++ (if p.cached then "true" else "false")

/-- The valuation cache, keyed by `"valuation:" + normalized address`.
The source stores the serialized payload string; since serialization is
inverted exactly by deserialization, the entry is modelled structurally.
TTL expiry is out of scope: every claim below assumes no intervening
expiry. -/
abbrev CacheState := List (String × Payload)

/-- Lookup in the valuation cache (`cache.get`). -/
def cacheGet : CacheState → String → Option Payload
  | [], _ => none
  | (k, v) :: rest, key => if k = key then some v else cacheGet rest key

/-- The three data providers consumed by the orchestrator.  The offline
implementations are deterministic functions and the network-backed ones
are outside the repository, so each enters as an arbitrary function; the
comparables signature carries the query parameters `(point, radius_km,
max_age_days, limit)` of the source call site. -/
structure Providers where
  resolve : String → List Candidate
  geo : String → GeocodeResult
  comps : GeoPoint → ℚ → Nat → Nat → List ComparableSale
  trends : GeoArea → Nat → List AreaTrendPoint

/-- The disambiguation gate of `value_address`:
`len(candidates) != 1 or candidates[0].get("confidence", 0) < 0.7` raises
HTTP 400; otherwise the single candidate is confirmed. -/
def gateCandidate : List Candidate → Option Candidate
  | [c] => if c.confidence.getD 0 < 7/10 then none else some c
  | _ => none

deriving instance DecidableEq for Except

/-- Result of one `value_address` call: the returned triple (payload,
served-from-cache flag, ETag) or the raised error, the cache afterwards,
and the provider-call trace. -/
structure VResult where
  result : Except VErr (Payload × Bool × String)
  cache : CacheState
  trace : List Ev
deriving DecidableEq

/-- Feature synthesis of the cache-miss path (steps 1-3 and 5-9 of the
orchestrator in `src/app/services/valuation_service.py`): geocode, then
comparables, then trends, trend derivation, medians, insights, property
type, feature dictionary.  A non-empty comparables list whose values for
an attribute are all `None` reaches `statistics.median([])`, which raises
`StatisticsError`. -/
def missFeatures (prov : Providers) (c : Candidate) (addr_norm : String) :
    Option Features :=
  let geo := prov.geo addr_norm
  let comps := prov.comps geo.point 2 90 6
  let comps_prices := comps.map (·.sale_price)
  let comps_avg : Option Int :=
    if comps_prices.isEmpty then none
    else some (pyInt (((comps_prices.sum : Int) : ℚ) / (comps_prices.length : ℚ)))
  let index12 := prov.trends geo.area 12
  let trend_mom_pct : ℚ :=
    match index12.reverse with
    | currPt :: prevPt :: _ =>
      if prevPt.index ≠ 0 then (currPt.index - prevPt.index) / prevPt.index * 100 else 0
    | _ => 0
  let bedsE : Except VErr ℚ :=
    if comps.isEmpty then .ok 3
    else match pyMedian (comps.filterMap (·.beds) |>.map (fun b => (b : ℚ))) with
      | some m => .ok m
      | none => .error .statisticsError
  let bathsE : Except VErr ℚ :=
    if comps.isEmpty then .ok 2
    else match pyMedian (comps.filterMap (·.baths)) with
      | some m => .ok m
      | none => .error .statisticsError
  let sqftE : Except VErr ℚ :=
    if comps.isEmpty then .ok 1200
    else match pyMedian (comps.filterMap (·.living_sqft) |>.map (fun s => (s : ℚ))) with
      | some m => .ok m
      | none => .error .statisticsError
  match bedsE, bathsE, sqftE with
  | .ok beds_m, .ok baths_m, .ok sqft_m =>
    let insights0 :=
      (if comps.isEmpty then []
       else [toString comps.length ++ " comparable sale(s) within ~2km in the last 90 days."]) ++
      (if trend_mom_pct ≠ 0 then
        [(if 0 < trend_mom_pct then "Local price index is up " else "Local price index is down ")
          ++ fmt1 |trend_mom_pct| ++ "% MoM."]
       else [])
    let defaultPT :=
      if strContains addr_norm "#" || strContains addr_norm "unit"
        || strContains addr_norm "apt" || strContains addr_norm "suite"
      then "condo" else "house"
    let property_type :=
      match c.property_type with
      | some h => if h = "" then defaultPT else h
      | none => defaultPT
    some
      { address_norm := addr_norm
        lat := geo.point.lat
        lon := geo.point.lon
        area_name := geo.area.name
        area_code := geo.area.code
        city := geo.city
        province := geo.province
        property_type := property_type
        trend_mom_pct := trend_mom_pct
        comps_count := comps.length
        comps_avg_price := comps_avg.getD 0
        beds_median := beds_m
        baths_median := baths_m
        sqft_median := sqft_m
        insights := insights0
        signal_quality := none }
  | _, _, _ => none

/-- Response assembly of the miss path (step 5 of the source): the payload
dictionary, with `cached` set to `False` and no `etag` key. -/
def assemblePayload (c : Candidate) (out : ModelOut) : Payload :=
  { address := c.address
    currency := "CAD"
    valuation := out.base
    low := out.low
    high := out.high
    confidence := out.confidence
    trend_mom_pct := round1 out.trend_mom_pct
    comparables_used := out.comps
    insights := out.insights
    sparkline_index_12m := out.sparkline
    factors := out.factors
    disclaimer := "This valuation is an estimate and not a financial appraisal."
    cached := false }

/-- The cache-miss path: synthesize features (three sequential provider
awaits), dispatch the strategy, assemble the payload, store it, and
compute the ETag from the serialized payload.  A raised `StatisticsError`
propagates before the cache write. -/
def missPath (P : Prims) (prov : Providers) (predict : Features → ModelOut)
    (c : Candidate) (addr_norm key : String) (cache : CacheState) : VResult :=
  match missFeatures prov c addr_norm with
  | none => { result := .error .statisticsError, cache := cache, trace := missTrace }
  | some features =>
    let payload := assemblePayload c (predict features)
    { result := .ok (payload, false, weak_etag P.digest (serializePayload payload))
      cache := (key, payload) :: cache
      trace := missTrace }

/-- Embedding of `ValuationService.value_address`: resolve, gate,
normalize, cache lookup (recomputing the ETag from the stored bytes on a
hit, without invoking any provider), and the miss path otherwise. -/
def value_address (P : Prims) (prov : Providers) (predict : Features → ModelOut)
    (raw : String) (cache : CacheState) : VResult :=
  match gateCandidate (prov.resolve raw) with
  | none => { result := .error .invalidInput, cache := cache, trace := [] }
  | some c =>
    let addr_norm := normalize_address c.address
    let key := "valuation:" ++ addr_norm
    match cacheGet cache key with
    | some p =>
      { result := .ok (p, true, weak_etag P.digest (serializePayload p))
        cache := cache
        trace := [] }
    | none => missPath P prov predict c addr_norm key cache

/-- The response the transport layer returns (`post_valuation` in
`src/app/routers/valuation.py`): the service payload with
`payload["cached"] = from_cache` and `payload["etag"] = etag` set after
the ETag was computed. -/
structure Delivered where
  body : Payload
  etag : String
deriving DecidableEq

/-- Embedding of the router response assembly. -/
def deliver (p : Payload) (from_cache : Bool) (etag : String) : Delivered :=
  { body := { p with cached := from_cache }, etag := etag }

/-!  Rate limiter (`rate_limit` in `src/app/core/security.py`).  The cache
key `f"rate:{api_key}:{client_ip}:{minute_bucket}"` fixes one identity and
one UTC minute bucket; the claims quantify over checks against that single
key, so the state below is the value stored under it.  Python `str` and
`int` on decimal naturals are modelled by the explicit codec
`intStr`/`strInt`; `int` raising `ValueError` is `strInt` returning
`none`. -/

/-- Python `str(n)` for a natural number: decimal digits. -/
def intStr (n : Nat) : String :=
  if n = 0 then "0"
  else String.mk ((Nat.digits 10 n).reverse.map fun d => Char.ofNat (48 + d))

/-- Python `int(s)` restricted to decimal-natural strings; anything else
raises `ValueError`, modelled as `none`. -/
def strInt (s : String) : Option Nat :=
  if s.data ≠ [] ∧ s.data.all Char.isDigit then
    some (Nat.ofDigits 10 ((s.data.map fun c => c.toNat - 48).reverse))
  else none

/-- One rate-limit check against a fixed identity and minute bucket:
`rpm = max(1, settings.RATE_LIMIT_RPM)`; a missing counter is initialized
to `"1"` and the request is allowed; otherwise the parsed counter plus one
is compared against `rpm`, rejecting (HTTP 429, without writing) when it
exceeds it and storing the incremented counter otherwise.  Returns the
stored value afterwards and whether the request was allowed. -/
def rate_limit (rpmSetting : Int) (current : Option String) : Option String × Bool :=
  let rpm : Int := max 1 rpmSetting
  match current with
  | none => (some "1", true)
  | some cur =>
    let count : Nat := match strInt cur with | some n => n + 1 | none => 1
    if rpm < (count : Int) then (some cur, false)
    else (some (intStr count), true)

/-- Iterate `rate_limit` for the first `k` checks of a minute bucket,
collecting each check's allow/reject outcome in order. -/
def rateRun (rpmSetting : Int) : Nat → Option String × List Bool
  | 0 => (none, [])
  | k + 1 =>
    let prev := rateRun rpmSetting k
    let step := rate_limit rpmSetting prev.1
    (step.1, prev.2 ++ [step.2])

/-!  Helper lemmas about the orchestrator used by several claims. -/

/-- Payload component of a call result, when the call succeeded. -/
def VResult.pay? (r : VResult) : Option Payload :=
  match r.result with
  | .ok (p, _, _) => some p
  | .error _ => none

/-- Served-from-cache flag of a call result, when the call succeeded. -/
def VResult.flag? (r : VResult) : Option Bool :=
  match r.result with
  | .ok (_, f, _) => some f
  | .error _ => none

/-- ETag component of a call result, when the call succeeded. -/
def VResult.tag? (r : VResult) : Option String :=
  match r.result with
  | .ok (_, _, e) => some e
  | .error _ => none

theorem cacheGet_cons_self (key : String) (p : Payload) (c : CacheState) :
    cacheGet ((key, p) :: c) key = some p := by
  simp [cacheGet]

/-- The miss path either succeeds, returning a freshly assembled payload
whose `cached` field is `false`, flagged as not-from-cache, with the ETag
computed from the serialized payload, the payload stored under the key,
and the sequential provider trace, or it raises the median error, leaving
the cache unchanged. -/
theorem missPath_spec (P : Prims) (prov : Providers) (predict : Features → ModelOut)
    (c : Candidate) (addr_norm key : String) (cache : CacheState) :
    (∃ p : Payload,
      missPath P prov predict c addr_norm key cache =
        { result := .ok (p, false, weak_etag P.digest (serializePayload p)),
          cache := (key, p) :: cache, trace := missTrace } ∧ p.cached = false) ∨
    missPath P prov predict c addr_norm key cache =
      { result := .error .statisticsError, cache := cache, trace := missTrace } := by
  unfold missPath
  rcases hf : missFeatures prov c addr_norm with _ | features
  · exact Or.inr rfl
  · exact Or.inl ⟨_, rfl, rfl⟩

theorem value_address_gate_none (P : Prims) (prov : Providers)
    (predict : Features → ModelOut) (raw : String) (cache : CacheState)
    (h : gateCandidate (prov.resolve raw) = none) :
    value_address P prov predict raw cache =
      { result := .error .invalidInput, cache := cache, trace := [] } := by
  unfold value_address
  rw [h]

theorem value_address_hit (P : Prims) (prov : Providers)
    (predict : Features → ModelOut) (raw : String) (cache : CacheState)
    (c : Candidate) (p : Payload)
    (hg : gateCandidate (prov.resolve raw) = some c)
    (hc : cacheGet cache ("valuation:" ++ normalize_address c.address) = some p) :
    value_address P prov predict raw cache =
      { result := .ok (p, true, weak_etag P.digest (serializePayload p)),
        cache := cache, trace := [] } := by
  unfold value_address
  rw [hg]
  simp only [hc]

theorem value_address_miss (P : Prims) (prov : Providers)
    (predict : Features → ModelOut) (raw : String) (cache : CacheState)
    (c : Candidate)
    (hg : gateCandidate (prov.resolve raw) = some c)
    (hc : cacheGet cache ("valuation:" ++ normalize_address c.address) = none) :
    value_address P prov predict raw cache =
      missPath P prov predict c (normalize_address c.address)
        ("valuation:" ++ normalize_address c.address) cache := by
  unfold value_address
  rw [hg]
  simp only [hc]

/-- A successful call leaves its payload in the cache under the key derived
from the confirmed candidate, and its ETag is the weak ETag of the
serialized payload. -/
theorem value_address_ok_lookup (P : Prims) (prov : Providers)
    (predict : Features → ModelOut) (raw : String) (cache : CacheState)
    (p : Payload) (f : Bool) (e : String)
    (h : (value_address P prov predict raw cache).result = .ok (p, f, e)) :
    ∃ c : Candidate, gateCandidate (prov.resolve raw) = some c ∧
      cacheGet (value_address P prov predict raw cache).cache
        ("valuation:" ++ normalize_address c.address) = some p ∧
      e = weak_etag P.digest (serializePayload p) := by
  rcases hg : gateCandidate (prov.resolve raw) with _ | c
  · rw [value_address_gate_none P prov predict raw cache hg] at h
    exact absurd h (by simp)
  · refine ⟨c, rfl, ?_⟩
    rcases hc : cacheGet cache ("valuation:" ++ normalize_address c.address) with _ | q
    · rw [value_address_miss P prov predict raw cache c hg hc] at h ⊢
      rcases missPath_spec P prov predict c (normalize_address c.address)
          ("valuation:" ++ normalize_address c.address) cache with ⟨q, hq, _⟩ | hq
      · rw [hq] at h ⊢
        simp only [Except.ok.injEq, Prod.mk.injEq] at h
        obtain ⟨hp, -, he⟩ := h
        subst hp
        exact ⟨cacheGet_cons_self _ q cache, he.symm⟩
      · rw [hq] at h
        exact absurd h (by simp)
    · rw [value_address_hit P prov predict raw cache c q hg hc] at h ⊢
      simp only [Except.ok.injEq, Prod.mk.injEq] at h
      obtain ⟨hp, -, he⟩ := h
      subst hp
      exact ⟨hc, he.symm⟩


/-- A call that succeeds with `served_from_cache = false` went down the
miss path: the gate confirmed a candidate, the key was absent, and the
call stored the freshly assembled payload (whose `cached` field is
`false`) under it, with the ETag computed from the serialized payload. -/
theorem value_address_ok_false (P : Prims) (prov : Providers)
    (predict : Features → ModelOut) (raw : String) (cache : CacheState)
    (p : Payload) (e : String)
    (h : (value_address P prov predict raw cache).result = .ok (p, false, e)) :
    ∃ c : Candidate, gateCandidate (prov.resolve raw) = some c ∧
      cacheGet cache ("valuation:" ++ normalize_address c.address) = none ∧
      p.cached = false ∧
      value_address P prov predict raw cache =
        { result := .ok (p, false, weak_etag P.digest (serializePayload p)),
          cache := ("valuation:" ++ normalize_address c.address, p) :: cache,
          trace := missTrace } ∧
      e = weak_etag P.digest (serializePayload p) := by
  rcases hg : gateCandidate (prov.resolve raw) with _ | c
  · rw [value_address_gate_none P prov predict raw cache hg] at h
    exact absurd h (by simp)
  · refine ⟨c, rfl, ?_⟩
    rcases hc : cacheGet cache ("valuation:" ++ normalize_address c.address) with _ | q
    · refine ⟨rfl, ?_⟩
      rw [value_address_miss P prov predict raw cache c hg hc] at h ⊢
      rcases missPath_spec P prov predict c (normalize_address c.address)
          ("valuation:" ++ normalize_address c.address) cache with ⟨q, hq, hqc⟩ | hq
      · rw [hq] at h ⊢
        simp only [Except.ok.injEq, Prod.mk.injEq] at h
        obtain ⟨hp, -, he⟩ := h
        subst hp
        exact ⟨hqc, rfl, he.symm⟩
      · rw [hq] at h
        exact absurd h (by simp)
    · rw [value_address_hit P prov predict raw cache c q hg hc] at h
      simp only [Except.ok.injEq, Prod.mk.injEq] at h
      exact absurd h.2.1 (by simp)

/-- The disambiguation gate rejects exactly the candidate lists that are
not a singleton with confidence at least 0.7. -/
theorem gateCandidate_none_iff (cs : List Candidate) :
    gateCandidate cs = none ↔
      (cs.length ≠ 1 ∨ ∃ c : Candidate, cs = [c] ∧ c.confidence.getD 0 < 7/10) := by
  match cs with
  | [] => simp [gateCandidate]
  | [c] =>
    by_cases h : c.confidence.getD 0 < 7/10
    · simp only [gateCandidate, if_pos h, List.length_singleton]
      exact ⟨fun _ => Or.inr ⟨c, rfl, h⟩, fun _ => trivial⟩
    · simp only [gateCandidate, if_neg h, List.length_singleton]
      constructor
      · intro hx
        exact absurd hx (by simp)
      · rintro (hlen | ⟨c2, hc2, hconf⟩)
        · exact absurd rfl hlen
        · obtain rfl : c = c2 := by injection hc2
          exact absurd hconf h
  | a :: b :: t => simp [gateCandidate]

/-- C3: `estimate(raw_address)` raises the client-input error (HTTP 400)
exactly when the Address Resolver output is not a single candidate of
confidence at least 0.7; in particular a single candidate at exactly 0.7
is accepted while a 0.65 singleton or a two-candidate list is rejected. -/
theorem disambiguation_gate (P : Prims) (prov : Providers)
    (predict : Features → ModelOut) (raw : String) (cache : CacheState) :
    (value_address P prov predict raw cache).result = .error .invalidInput ↔
      ((prov.resolve raw).length ≠ 1 ∨
        ∃ c : Candidate, prov.resolve raw = [c] ∧ c.confidence.getD 0 < 7/10) := by
  rw [← gateCandidate_none_iff]
  constructor
  · intro h
    rcases hg : gateCandidate (prov.resolve raw) with _ | c
    · rfl
    · exfalso
      rcases hc : cacheGet cache ("valuation:" ++ normalize_address c.address) with _ | q
      · rw [value_address_miss P prov predict raw cache c hg hc] at h
        rcases missPath_spec P prov predict c (normalize_address c.address)
            ("valuation:" ++ normalize_address c.address) cache with ⟨q, hq, -⟩ | hq
        · rw [hq] at h
          exact absurd h (by simp)
        · rw [hq] at h
          simp only [Except.error.injEq] at h
          exact absurd h (by simp)
      · rw [value_address_hit P prov predict raw cache c q hg hc] at h
        exact absurd h (by simp)
  · intro h
    rw [value_address_gate_none P prov predict raw cache h]

/-- C2: with the heuristic strategy (and providers fixed as functions, as
the offline deterministic ones are), a successful `estimate` call followed
by a second call with the same raw address and no intervening expiry
returns the identical payload (hence byte-identical serialization) and the
identical ETag, with the second call served from cache. -/
theorem heuristic_determinism (P : Prims) (prov : Providers) (raw : String)
    (c0 : CacheState)
    (h : (value_address P prov (mockPredict P) raw c0).result.isOk = true) :
    (value_address P prov (mockPredict P) raw
        (value_address P prov (mockPredict P) raw c0).cache).pay?
      = (value_address P prov (mockPredict P) raw c0).pay? ∧
    (value_address P prov (mockPredict P) raw
        (value_address P prov (mockPredict P) raw c0).cache).tag?
      = (value_address P prov (mockPredict P) raw c0).tag? ∧
    (value_address P prov (mockPredict P) raw
        (value_address P prov (mockPredict P) raw c0).cache).flag? = some true ∧
    ((value_address P prov (mockPredict P) raw
        (value_address P prov (mockPredict P) raw c0).cache).pay?.map serializePayload)
      = ((value_address P prov (mockPredict P) raw c0).pay?.map serializePayload) := by
  rcases hres : (value_address P prov (mockPredict P) raw c0).result with er | t
  · rw [hres] at h
    simp [Except.isOk, Except.toBool] at h
  · obtain ⟨p, f, e⟩ := t
    obtain ⟨c, hg, hlook, he⟩ :=
      value_address_ok_lookup P prov (mockPredict P) raw c0 p f e hres
    rw [value_address_hit P prov (mockPredict P) raw
        (value_address P prov (mockPredict P) raw c0).cache c p hg hlook]
    simp [VResult.pay?, VResult.tag?, VResult.flag?, hres, he]

/-- C4: two confirmed addresses that normalize identically derive the same
cache key; after a successful first call, a call whose candidate
normalizes the same way is served from cache with the stored payload and
issues no provider call at all. -/
theorem cache_key_coherence (P : Prims) (prov : Providers) (raw1 raw2 : String)
    (c0 : CacheState) (cand1 cand2 : Candidate)
    (h1 : gateCandidate (prov.resolve raw1) = some cand1)
    (h2 : gateCandidate (prov.resolve raw2) = some cand2)
    (hn : normalize_address cand1.address = normalize_address cand2.address)
    (hok : (value_address P prov (mockPredict P) raw1 c0).result.isOk = true) :
    ("valuation:" ++ normalize_address cand1.address)
      = ("valuation:" ++ normalize_address cand2.address) ∧
    (value_address P prov (mockPredict P) raw2
        (value_address P prov (mockPredict P) raw1 c0).cache).flag? = some true ∧
    (value_address P prov (mockPredict P) raw2
        (value_address P prov (mockPredict P) raw1 c0).cache).trace = [] ∧
    (value_address P prov (mockPredict P) raw2
        (value_address P prov (mockPredict P) raw1 c0).cache).pay?
      = (value_address P prov (mockPredict P) raw1 c0).pay? := by
  refine ⟨by rw [hn], ?_⟩
  rcases hres : (value_address P prov (mockPredict P) raw1 c0).result with er | t
  · rw [hres] at hok
    simp [Except.isOk, Except.toBool] at hok
  · obtain ⟨p, f, e⟩ := t
    obtain ⟨c, hg, hlook, -⟩ :=
      value_address_ok_lookup P prov (mockPredict P) raw1 c0 p f e hres
    rw [h1] at hg
    obtain rfl : cand1 = c := by injection hg
    rw [hn] at hlook
    rw [value_address_hit P prov (mockPredict P) raw2
        (value_address P prov (mockPredict P) raw1 c0).cache cand2 p h2 hlook]
    simp [VResult.pay?, VResult.flag?, hres]

/-- C10: the ETag is computed from the serialized payload before the
transport layer sets the `cached`/`etag` response fields: the stored and
hashed payload always carries `cached = false`, a subsequent cache hit
recomputes the identical ETag, and the delivered miss and hit responses
differ in the `cached` field while carrying the same ETag. -/
theorem etag_precedes_transport (P : Prims) (prov : Providers) (raw : String)
    (c0 : CacheState)
    (h : (value_address P prov (mockPredict P) raw c0).flag? = some false) :
    (value_address P prov (mockPredict P) raw c0).pay?.map Payload.cached
      = some false ∧
    (value_address P prov (mockPredict P) raw c0).tag?
      = (value_address P prov (mockPredict P) raw c0).pay?.map
          (fun p => weak_etag P.digest (serializePayload p)) ∧
    (value_address P prov (mockPredict P) raw
        (value_address P prov (mockPredict P) raw c0).cache).pay?
      = (value_address P prov (mockPredict P) raw c0).pay? ∧
    (value_address P prov (mockPredict P) raw
        (value_address P prov (mockPredict P) raw c0).cache).tag?
      = (value_address P prov (mockPredict P) raw c0).tag? ∧
    (value_address P prov (mockPredict P) raw
        (value_address P prov (mockPredict P) raw c0).cache).flag? = some true ∧
    (∀ (p : Payload) (et : String),
      (deliver p false et).body.cached = false ∧
      (deliver p true et).body.cached = true ∧
      (deliver p false et).etag = (deliver p true et).etag) := by
  rcases hres : (value_address P prov (mockPredict P) raw c0).result with er | t
  · rw [VResult.flag?, hres] at h
    exact absurd h (by simp)
  · obtain ⟨p, f, e⟩ := t
    rw [VResult.flag?, hres] at h
    simp only [Option.some.injEq] at h
    subst h
    obtain ⟨c, hg, -, hcached, heq, he⟩ :=
      value_address_ok_false P prov (mockPredict P) raw c0 p e hres
    have hlook : cacheGet (value_address P prov (mockPredict P) raw c0).cache
        ("valuation:" ++ normalize_address c.address) = some p := by
      rw [heq]
      exact cacheGet_cons_self _ p c0
    rw [value_address_hit P prov (mockPredict P) raw
        (value_address P prov (mockPredict P) raw c0).cache c p hg hlook]
    refine ⟨?_, ?_, ?_, ?_, ?_, fun q et => ⟨rfl, rfl, rfl⟩⟩ <;>
      simp [VResult.pay?, VResult.tag?, VResult.flag?, hres, he, hcached]

/-!  Concrete fixtures used by the evidence theorems and witnesses. -/

/-- Concrete primitives for evaluation (any fixed functions qualify). -/
def witnessPrims : Prims :=
  { sinQ := fun _ => 0, digest := fun _ => "0123456789abcdef01234567" }

/-- Providers returning fixed data, as the offline deterministic
implementations do for one fixed input. -/
def constProviders (cands : List Candidate) (geo : GeocodeResult)
    (comps : List ComparableSale) (trends : List AreaTrendPoint) : Providers :=
  { resolve := fun _ => cands
    geo := fun _ => geo
    comps := fun _ _ _ _ => comps
    trends := fun _ _ => trends }

/-- A concrete geocode result. -/
def witnessGeo : GeocodeResult :=
  { point := { lat := 49, lon := -123 }
    area := { name := "Kitsilano", code := some "MLS-02" }
    city := "Vancouver", province := "BC" }

/-- A confirmed high-confidence candidate. -/
def witnessCand : Candidate :=
  { address := "1 A St", confidence := some 1, property_type := none }

/-- A comparable sale whose `beds` attribute is null while the others are
present. -/
def nullBedsComp : ComparableSale :=
  { distance_km := 1, sale_price := 500000, sale_date := 738000,
    beds := none, baths := some 2, living_sqft := some 900,
    property_type := some "house" }

/-- A comparable sale with every attribute present. -/
def fullComp (price : Int) : ComparableSale :=
  { distance_km := 1, sale_price := price, sale_date := 738000,
    beds := some 3, baths := some 2, living_sqft := some 1000,
    property_type := some "house" }

/-- C9: on a cache miss the three provider calls are three sequential
awaits: the geocode call completes first, and the trends call starts only
after the comparables call has completed — there is no concurrent
issuance, contradicting the concurrency requirement of the
specification. -/
theorem provider_calls_sequential (P : Prims) (prov : Providers)
    (predict : Features → ModelOut) (raw : String) (cache : CacheState)
    (c : Candidate)
    (h1 : gateCandidate (prov.resolve raw) = some c)
    (h2 : cacheGet cache ("valuation:" ++ normalize_address c.address) = none) :
    (value_address P prov predict raw cache).trace =
      [.geoStart, .geoEnd, .compsStart, .compsEnd, .trendsStart, .trendsEnd] := by
  rw [value_address_miss P prov predict raw cache c h1 h2]
  rcases missPath_spec P prov predict c (normalize_address c.address)
      ("valuation:" ++ normalize_address c.address) cache with ⟨q, hq, -⟩ | hq <;>
    rw [hq] <;> rfl

theorem provider_calls_sequential_witness :
    gateCandidate ((constProviders [witnessCand] witnessGeo [] []).resolve "1 A St")
      = some witnessCand ∧
    cacheGet ([] : CacheState) ("valuation:" ++ normalize_address witnessCand.address)
      = none ∧
    (value_address witnessPrims (constProviders [witnessCand] witnessGeo [] [])
        (mockPredict witnessPrims) "1 A St" []).trace =
      [.geoStart, .geoEnd, .compsStart, .compsEnd, .trendsStart, .trendsEnd] :=
  ⟨by with_unfolding_all decide, by with_unfolding_all decide,
    provider_calls_sequential witnessPrims (constProviders [witnessCand] witnessGeo [] [])
      (mockPredict witnessPrims) "1 A St" [] witnessCand
      (by with_unfolding_all decide) (by with_unfolding_all decide)⟩

/-- C5: evidence of the median divergence.  A non-empty comparables list
in which every comparable has a null `beds` value makes the pipeline raise
`StatisticsError` (the guard is `if comps` rather than a per-attribute
check, so `statistics.median` is applied to an empty list), while an empty
comparables list does produce the documented defaults 3/2/1200. -/
theorem median_all_null_raises :
    (value_address witnessPrims
        (constProviders [witnessCand] witnessGeo [nullBedsComp, nullBedsComp] [])
        (mockPredict witnessPrims) "1 A St" []).result = .error .statisticsError ∧
    (missFeatures (constProviders [witnessCand] witnessGeo [] []) witnessCand
        (normalize_address witnessCand.address)).map
      (fun f => (f.beds_median, f.baths_median, f.sqft_median)) = some (3, 2, 1200) := by
  with_unfolding_all decide

/-- C6: evidence that the signal-quality score is never supplied to the
strategy.  With three comparables and zero trend the score is 12, so the
claimed confidence is 60 + 12 = 72; but the feature dictionary carries no
`signal_quality` key, `MockModel.predict` falls back to its default 0, and
the produced confidence is 60. -/
theorem signal_quality_dropped :
    signal_quality 3 0 = 12 ∧
    (60 : ℚ) + signal_quality 3 0 = 72 ∧
    ((value_address witnessPrims
        (constProviders [witnessCand] witnessGeo
          [fullComp 500000, fullComp 600000, fullComp 700000] [])
        (mockPredict witnessPrims) "1 A St" []).pay?.map Payload.confidence)
      = some 60 := by
  with_unfolding_all decide

/-!  The decimal codec round-trips, and the rate-window behaviour. -/

theorem enc_digit_isDigit (d : Nat) (hd : d < 10) :
    (Char.ofNat (48 + d)).isDigit = true := by
  interval_cases d <;> decide

theorem enc_digit_toNat (d : Nat) (hd : d < 10) :
    (Char.ofNat (48 + d)).toNat - 48 = d := by
  interval_cases d <;> decide

theorem map_id_of_forall {α : Type} (l : List α) (f : α → α) (h : ∀ a ∈ l, f a = a) :
    l.map f = l := by
  induction l with
  | nil => rfl
  | cons a t ih =>
    simp only [List.map_cons, h a (by simp)]
    rw [ih (fun b hb => h b (by simp [hb]))]

/-- Python `int(str(n)) = n` on naturals. -/
theorem strInt_intStr (n : Nat) : strInt (intStr n) = some n := by
  rcases Nat.eq_zero_or_pos n with h0 | hpos
  · subst h0
    with_unfolding_all decide
  · have hne : Nat.digits 10 n ≠ [] := Nat.digits_ne_nil_iff_ne_zero.mpr hpos.ne'
    have hlt : ∀ d ∈ Nat.digits 10 n, d < 10 :=
      fun d hd => Nat.digits_lt_base (by norm_num) hd
    unfold intStr strInt
    rw [if_neg hpos.ne']
    have hdata : (String.mk ((Nat.digits 10 n).reverse.map fun d => Char.ofNat (48 + d))).data
        = (Nat.digits 10 n).reverse.map fun d => Char.ofNat (48 + d) := rfl
    rw [hdata]
    have hne2 : ((Nat.digits 10 n).reverse.map fun d => Char.ofNat (48 + d)) ≠ [] := by
      intro hcon
      exact hne (List.reverse_eq_nil_iff.mp (List.map_eq_nil_iff.mp hcon))
    have hall : ((Nat.digits 10 n).reverse.map fun d => Char.ofNat (48 + d)).all
        Char.isDigit = true := by
      rw [List.all_eq_true]
      intro c hc
      rw [List.mem_map] at hc
      obtain ⟨d, hd, rfl⟩ := hc
      exact enc_digit_isDigit d (hlt d (List.mem_reverse.mp hd))
    rw [if_pos ⟨hne2, hall⟩]
    congr 1
    rw [List.map_map]
    have hmap : ((Nat.digits 10 n).reverse.map
        ((fun c : Char => c.toNat - 48) ∘ fun d => Char.ofNat (48 + d)))
        = (Nat.digits 10 n).reverse := by
      refine map_id_of_forall _ _ (fun d hd => ?_)
      simp only [Function.comp_apply]
      exact enc_digit_toNat d (hlt d (List.mem_reverse.mp hd))
    rw [hmap, List.reverse_reverse, Nat.ofDigits_digits]

/-- After `k ≤ N` checks in a fresh minute bucket the counter reads `k`
and every check so far was allowed. -/
theorem rateRun_allowed (N : Nat) (hN : 1 ≤ N) (k : Nat) (hk : k ≤ N) :
    rateRun (N : Int) k =
      (if k = 0 then none else some (intStr k), List.replicate k true) := by
  induction k with
  | zero => simp [rateRun]
  | succ k ih =>
    have ihk := ih (Nat.le_of_succ_le hk)
    unfold rateRun
    rw [ihk]
    rcases Nat.eq_zero_or_pos k with hk0 | hkpos
    · subst hk0
      have h1 : intStr 1 = "1" := by with_unfolding_all decide
      simp [rate_limit, h1]
    · rw [if_neg hkpos.ne']
      have hnotlt : ¬ (max 1 (N : Int) < ((k + 1 : Nat) : Int)) := by
        have hrpm : max 1 (N : Int) = (N : Int) :=
          max_eq_right (by exact_mod_cast hN)
        rw [hrpm]
        push_neg
        exact_mod_cast hk
      simp only [rate_limit, strInt_intStr, if_neg hnotlt, if_neg (Nat.succ_ne_zero k)]
      rw [List.replicate_succ']

/-- C7: for a configured limit N at least 1 and a fixed identity and
minute bucket, the first check initializes the counter to 1 and each of
the first N checks is allowed, while the (N+1)-th check is rejected. -/
theorem rate_window (N : Nat) (hN : 1 ≤ N) :
    (∀ k, 1 ≤ k → k ≤ N →
      rateRun (N : Int) k = (some (intStr k), List.replicate k true)) ∧
    rateRun (N : Int) (N + 1) = (some (intStr N), List.replicate N true ++ [false]) := by
  constructor
  · intro k hk1 hkN
    rw [rateRun_allowed N hN k hkN, if_neg (by omega)]
  · unfold rateRun
    rw [rateRun_allowed N hN N le_rfl, if_neg (by omega)]
    have hlt : max 1 (N : Int) < ((N + 1 : Nat) : Int) := by
      have hrpm : max 1 (N : Int) = (N : Int) := max_eq_right (by exact_mod_cast hN)
      rw [hrpm]
      exact_mod_cast Nat.lt_succ_self N
    simp only [rate_limit, strInt_intStr, if_pos hlt]

theorem rate_window_witness :
    (1 : Nat) ≤ 2 ∧
    rateRun ((2 : Nat) : Int) (2 + 1) = (some (intStr 2), List.replicate 2 true ++ [false]) :=
  ⟨by decide, (rate_window 2 (by decide)).2⟩

/-- C8: constructing the service with the regression strategy selected and
an artifact that fails to load does not raise; the service substitutes the
heuristic strategy, and every subsequent predict call is exactly the
heuristic prediction on the same feature record. -/
theorem model_load_fallback (P : Prims) (respond : Features → Except String OpenAIData)
    (apiKeySet : Bool) (f : Features) :
    initModel "ml" (.error ()) respond apiKeySet = .ok .mock ∧
    ModelChoice.runPredict P .mock f = .ok (mockPredict P f) :=
  ⟨rfl, rfl⟩

/-!  The band invariant (C1). -/

/-- The band invariant of a `ValuationEstimate`:
`low ≤ base ≤ high` and `confidence ∈ [0, 100]`. -/
abbrev BandOK (o : ModelOut) : Prop :=
  o.low ≤ o.base ∧ o.base ≤ o.high ∧ 0 ≤ o.confidence ∧ o.confidence ≤ 100

/-- Well-formedness of a feature record, as derivable from the data-model
invariants (comparable prices positive, hence a nonnegative comparables
average, and a month-over-month change no smaller than -100 percent). -/
abbrev WellFormedFeatures (f : Features) : Prop :=
  0 ≤ f.comps_avg_price ∧ -100 ≤ f.trend_mom_pct

theorem seeded_rand_one (seed : Nat) :
    seeded_rand seed 1 = [(seededRandStep ((seed + 0x6D2B79F5) &&& 0xFFFFFFFF)).2] := rfl

theorem seeded_rand_head_nonneg (seed : Nat) : 0 ≤ (seeded_rand seed 1).headD 0 := by
  rw [seeded_rand_one]
  simp only [List.headD_cons]
  unfold seededRandStep
  dsimp only
  positivity

theorem pyInt_nonneg (q : ℚ) (h : 0 ≤ q) : 0 ≤ pyInt q := by
  unfold pyInt
  rw [if_pos h]
  exact Int.floor_nonneg.mpr h

theorem pyInt_eq_floor (q : ℚ) (h : 0 ≤ q) : pyInt q = ⌊q⌋ := by
  unfold pyInt
  rw [if_pos h]

theorem pyRound_le (q : ℚ) : (pyRound q : ℚ) ≤ q + 1/2 := by
  unfold pyRound
  dsimp only
  have h1 : (⌊q⌋ : ℚ) ≤ q := Int.floor_le q
  split_ifs with ha hb hc <;> push_cast <;> linarith

theorem le_pyRound (q : ℚ) : q - 1/2 ≤ (pyRound q : ℚ) := by
  unfold pyRound
  dsimp only
  have h1 : (⌊q⌋ : ℚ) ≤ q := Int.floor_le q
  have h2 : q < ⌊q⌋ + 1 := Int.lt_floor_add_one q
  split_ifs with ha hb hc <;> push_cast <;> linarith

theorem int_le_of_cast_le_half (z b : Int) (h : (z : ℚ) ≤ (b : ℚ) + 1/2) : z ≤ b := by
  by_contra hc
  push_neg at hc
  have hq : ((b + 1 : Int) : ℚ) ≤ (z : ℚ) := by exact_mod_cast hc
  push_cast at hq
  linarith

/-- The seed-derived 5-12 percent money band brackets any nonnegative
base. -/
theorem money_band_bounds (b : Int) (hb : 0 ≤ b) (seed : Nat) :
    (money_band b seed).1 ≤ b ∧ b ≤ (money_band b seed).2 := by
  unfold money_band
  dsimp only
  have hr : 0 ≤ (seeded_rand (seed + 1) 1).headD 0 := seeded_rand_head_nonneg (seed + 1)
  have hs0 : 0 ≤ 5/100 + (seeded_rand (seed + 1) 1).headD 0 * (7/100) := by
    have := mul_nonneg hr (show (0:ℚ) ≤ 7/100 by norm_num)
    linarith
  have hbq : (0:ℚ) ≤ (b : ℚ) := by exact_mod_cast hb
  constructor
  · apply int_le_of_cast_le_half
    have hmul : (b : ℚ) * (1 - (5/100 + (seeded_rand (seed + 1) 1).headD 0 * (7/100)))
        ≤ (b : ℚ) := by nlinarith
    calc (pyRound ((b : ℚ) * (1 - (5/100 + (seeded_rand (seed + 1) 1).headD 0 * (7/100)))) : ℚ)
        ≤ (b : ℚ) * (1 - (5/100 + (seeded_rand (seed + 1) 1).headD 0 * (7/100))) + 1/2 :=
          pyRound_le _
      _ ≤ (b : ℚ) + 1/2 := by linarith
  · apply int_le_of_cast_le_half
    have hmul : (b : ℚ) ≤ (b : ℚ) * (1 + (5/100 + (seeded_rand (seed + 1) 1).headD 0 * (7/100))) := by
      nlinarith
    have hlow := le_pyRound ((b : ℚ) * (1 + (5/100 + (seeded_rand (seed + 1) 1).headD 0 * (7/100))))
    linarith

theorem base_seed_nonneg (seed : Nat) :
    (0 : Int) ≤ pyInt (350000 + (seeded_rand seed 1).headD 0 * 1850000) := by
  refine pyInt_nonneg _ ?_
  have := seeded_rand_head_nonneg seed
  nlinarith

/-- The heuristic blend of a nonnegative seed base and a nonnegative
comparables average adjusted by a trend of at least -100 percent is
nonnegative. -/
theorem blended_nonneg (bs ca : Int) (t : ℚ) (hbs : 0 ≤ bs) (hca : 0 ≤ ca)
    (ht : -100 ≤ t) :
    (0 : Int) ≤ pyInt ((6/10) * (bs : ℚ) + (35/100) * (ca : ℚ) * (1 + t / 100)
      + (5/100) * (bs : ℚ)) := by
  refine pyInt_nonneg _ ?_
  have h1 : (0:ℚ) ≤ (bs : ℚ) := by exact_mod_cast hbs
  have h2 : (0:ℚ) ≤ (ca : ℚ) := by exact_mod_cast hca
  have h3 : (0:ℚ) ≤ 1 + t / 100 := by linarith
  nlinarith

/-- The heuristic confidence `int(60 + min(30, max(0, sq)))` lies in
[0, 100] for every signal-quality input. -/
theorem mock_conf_bounds (q : ℚ) :
    0 ≤ pyInt (60 + min 30 (max 0 q)) ∧ pyInt (60 + min 30 (max 0 q)) ≤ 100 := by
  have h0 : (0:ℚ) ≤ min 30 (max 0 q) := le_min (by norm_num) (le_max_left 0 q)
  have h30 : min 30 (max 0 q) ≤ 30 := min_le_left _ _
  rw [pyInt_eq_floor _ (by linarith)]
  constructor
  · exact Int.floor_nonneg.mpr (by linarith)
  · have hle : (60 : ℚ) + min 30 (max 0 q) ≤ (100 : ℚ) := by linarith
    have := Int.floor_le_floor hle
    simpa using this

/-- The heuristic strategy satisfies the band invariant on well-formed
feature records. -/
theorem mockPredict_band (P : Prims) (f : Features)
    (hca : 0 ≤ f.comps_avg_price) (ht : -100 ≤ f.trend_mom_pct) :
    BandOK (mockPredict P f) := by
  unfold mockPredict
  dsimp only
  have hb := blended_nonneg (pyInt (350000 + (seeded_rand (fnv1a_32 f.address_norm) 1).headD 0 * 1850000))
    f.comps_avg_price f.trend_mom_pct (base_seed_nonneg (fnv1a_32 f.address_norm)) hca ht
  have hband := money_band_bounds _ hb (fnv1a_32 f.address_norm)
  have hconf := mock_conf_bounds (f.signal_quality.getD 0)
  exact ⟨hband.1, hband.2, hconf.1, hconf.2⟩

/-- The generic-model strategy delegates to the heuristic one and only
appends an insight, so it inherits the band invariant. -/
theorem llmPredict_band (P : Prims) (f : Features)
    (hca : 0 ≤ f.comps_avg_price) (ht : -100 ≤ f.trend_mom_pct) :
    BandOK (llmPredict P f) := by
  have h := mockPredict_band P f hca ht
  unfold llmPredict
  dsimp only
  exact h

/-- The regression strategy satisfies the band invariant whenever the
loaded model predicts a nonnegative value. -/
theorem sklearnPredict_band (m : Features → ℚ) (f : Features) (hy : 0 ≤ m f) :
    BandOK (sklearnPredict m f) := by
  have h92 : (0:ℚ) ≤ m f * (92/100) := by nlinarith
  have h92b : m f * (92/100) ≤ m f := by nlinarith
  have h108 : m f ≤ m f * (108/100) := by nlinarith
  have h0 : (0 : Int) ≤ pyInt (max 0 ((f.comps_count : Int) : ℚ)) :=
    pyInt_nonneg _ (le_max_left 0 _)
  have h15 : (0 : Int) ≤ min 15 (pyInt (max 0 ((f.comps_count : Int) : ℚ))) :=
    le_min (by norm_num) h0
  unfold sklearnPredict BandOK
  refine ⟨?_, ?_, ?_, ?_⟩ <;> dsimp only
  · rw [pyInt_eq_floor _ h92, pyInt_eq_floor _ hy]
    exact Int.floor_le_floor h92b
  · rw [pyInt_eq_floor _ hy, pyInt_eq_floor _ (le_trans hy h108)]
    exact Int.floor_le_floor h108
  · exact le_min (by linarith) (by norm_num)
  · exact le_trans (min_le_right _ 95) (by norm_num)

/-- A syntactically complete hosted-LLM response whose numbers violate the
band invariant: all nine required keys are present, so the key-presence
validation accepts it. -/
def llmBadData : OpenAIData :=
  { base := some 100, low := some 200, high := some 50, confidence := some 150,
    trend_mom_pct := some 0, comps := some 0, insights := some [],
    sparkline := some [], factors := some [] }

/-- A well-formed feature record used as a concrete strategy input. -/
def wfFeatures : Features :=
  { address_norm := "1 a st", lat := 49, lon := -123,
    area_name := "Kitsilano", area_code := some "MLS-02",
    city := "Vancouver", province := "BC", property_type := "house",
    trend_mom_pct := 0, comps_count := 0, comps_avg_price := 0,
    beds_median := 3, baths_median := 2, sqft_median := 1200, insights := [] }

/-- C1, counterexample: the hosted-LLM strategy validates key presence
only, so from a well-formed feature record it can produce an estimate with
`low > base > high` and confidence 150 — the claimed band invariant fails
for that variant. -/
theorem band_invariant_cex :
    WellFormedFeatures wfFeatures ∧
    openaiPredict (fun _ => .ok llmBadData) wfFeatures =
      .ok { base := 100, low := 200, high := 50, confidence := 150, trend_mom_pct := 0,
            comps := 0, insights := [], sparkline := [], factors := [] } ∧
    ¬ BandOK { base := 100, low := 200, high := 50, confidence := 150, trend_mom_pct := 0,
               comps := 0, insights := [], sparkline := [], factors := [] } := by
  with_unfolding_all decide

/-- C1, amended: the band invariant `low ≤ base ≤ high`,
`0 ≤ confidence ≤ 100` holds for the heuristic and generic-model variants
on every well-formed feature record, and for the regression variant
whenever the loaded model predicts a nonnegative value; the hosted-LLM
variant only guarantees key presence (see the counterexample). -/
theorem band_invariant_amended (P : Prims) (m : Features → ℚ) (f : Features)
    (hf : WellFormedFeatures f) (hm : 0 ≤ m f) :
    BandOK (mockPredict P f) ∧ BandOK (llmPredict P f) ∧ BandOK (sklearnPredict m f) :=
  ⟨mockPredict_band P f hf.1 hf.2, llmPredict_band P f hf.1 hf.2,
    sklearnPredict_band m f hm⟩

theorem band_invariant_amended_witness :
    WellFormedFeatures wfFeatures ∧ (0 : ℚ) ≤ (fun _ : Features => (1 : ℚ)) wfFeatures ∧
    (BandOK (mockPredict witnessPrims wfFeatures) ∧
     BandOK (llmPredict witnessPrims wfFeatures) ∧
     BandOK (sklearnPredict (fun _ => (1 : ℚ)) wfFeatures)) :=
  ⟨by with_unfolding_all decide, by with_unfolding_all decide,
    band_invariant_amended witnessPrims (fun _ => 1) wfFeatures
      (by with_unfolding_all decide) (by with_unfolding_all decide)⟩

theorem heuristic_determinism_witness :
    (value_address witnessPrims (constProviders [witnessCand] witnessGeo [] [])
        (mockPredict witnessPrims) "1 A St" []).result.isOk = true ∧
    ((value_address witnessPrims (constProviders [witnessCand] witnessGeo [] [])
        (mockPredict witnessPrims) "1 A St"
        (value_address witnessPrims (constProviders [witnessCand] witnessGeo [] [])
          (mockPredict witnessPrims) "1 A St" []).cache).pay?
      = (value_address witnessPrims (constProviders [witnessCand] witnessGeo [] [])
          (mockPredict witnessPrims) "1 A St" []).pay? ∧
     (value_address witnessPrims (constProviders [witnessCand] witnessGeo [] [])
        (mockPredict witnessPrims) "1 A St"
        (value_address witnessPrims (constProviders [witnessCand] witnessGeo [] [])
          (mockPredict witnessPrims) "1 A St" []).cache).tag?
      = (value_address witnessPrims (constProviders [witnessCand] witnessGeo [] [])
          (mockPredict witnessPrims) "1 A St" []).tag? ∧
     (value_address witnessPrims (constProviders [witnessCand] witnessGeo [] [])
        (mockPredict witnessPrims) "1 A St"
        (value_address witnessPrims (constProviders [witnessCand] witnessGeo [] [])
          (mockPredict witnessPrims) "1 A St" []).cache).flag? = some true ∧
     ((value_address witnessPrims (constProviders [witnessCand] witnessGeo [] [])
        (mockPredict witnessPrims) "1 A St"
        (value_address witnessPrims (constProviders [witnessCand] witnessGeo [] [])
          (mockPredict witnessPrims) "1 A St" []).cache).pay?.map serializePayload)
      = ((value_address witnessPrims (constProviders [witnessCand] witnessGeo [] [])
          (mockPredict witnessPrims) "1 A St" []).pay?.map serializePayload)) :=
  ⟨by with_unfolding_all decide,
    heuristic_determinism witnessPrims (constProviders [witnessCand] witnessGeo [] [])
      "1 A St" [] (by with_unfolding_all decide)⟩

/-- Two raw spellings that the resolver confirms to different strings with
the same normalization. -/
def cand4a : Candidate :=
  { address := "123 Main St", confidence := some 1, property_type := none }

def cand4b : Candidate :=
  { address := "  123   MAIN st ", confidence := some 1, property_type := none }

def provC4 : Providers :=
  { resolve := fun raw => if raw = "a" then [cand4a] else [cand4b]
    geo := fun _ => witnessGeo
    comps := fun _ _ _ _ => []
    trends := fun _ _ => [] }

theorem cache_key_coherence_witness :
    gateCandidate (provC4.resolve "a") = some cand4a ∧
    gateCandidate (provC4.resolve "b") = some cand4b ∧
    normalize_address cand4a.address = normalize_address cand4b.address ∧
    (value_address witnessPrims provC4 (mockPredict witnessPrims) "a" []).result.isOk
      = true ∧
    (("valuation:" ++ normalize_address cand4a.address)
        = ("valuation:" ++ normalize_address cand4b.address) ∧
      (value_address witnessPrims provC4 (mockPredict witnessPrims) "b"
          (value_address witnessPrims provC4 (mockPredict witnessPrims) "a" []).cache).flag?
        = some true ∧
      (value_address witnessPrims provC4 (mockPredict witnessPrims) "b"
          (value_address witnessPrims provC4 (mockPredict witnessPrims) "a" []).cache).trace
        = [] ∧
      (value_address witnessPrims provC4 (mockPredict witnessPrims) "b"
          (value_address witnessPrims provC4 (mockPredict witnessPrims) "a" []).cache).pay?
        = (value_address witnessPrims provC4 (mockPredict witnessPrims) "a" []).pay?) :=
  ⟨by with_unfolding_all decide, by with_unfolding_all decide,
    by with_unfolding_all decide, by with_unfolding_all decide,
    cache_key_coherence witnessPrims provC4 "a" "b" [] cand4a cand4b
      (by with_unfolding_all decide) (by with_unfolding_all decide)
      (by with_unfolding_all decide) (by with_unfolding_all decide)⟩

theorem etag_precedes_transport_witness :
    (value_address witnessPrims (constProviders [witnessCand] witnessGeo [] [])
        (mockPredict witnessPrims) "1 A St" []).flag? = some false ∧
    ((value_address witnessPrims (constProviders [witnessCand] witnessGeo [] [])
        (mockPredict witnessPrims) "1 A St" []).pay?.map Payload.cached = some false ∧
      (value_address witnessPrims (constProviders [witnessCand] witnessGeo [] [])
          (mockPredict witnessPrims) "1 A St" []).tag?
        = (value_address witnessPrims (constProviders [witnessCand] witnessGeo [] [])
            (mockPredict witnessPrims) "1 A St" []).pay?.map
            (fun p => weak_etag witnessPrims.digest (serializePayload p)) ∧
      (value_address witnessPrims (constProviders [witnessCand] witnessGeo [] [])
          (mockPredict witnessPrims) "1 A St"
          (value_address witnessPrims (constProviders [witnessCand] witnessGeo [] [])
            (mockPredict witnessPrims) "1 A St" []).cache).pay?
        = (value_address witnessPrims (constProviders [witnessCand] witnessGeo [] [])
            (mockPredict witnessPrims) "1 A St" []).pay? ∧
      (value_address witnessPrims (constProviders [witnessCand] witnessGeo [] [])
          (mockPredict witnessPrims) "1 A St"
          (value_address witnessPrims (constProviders [witnessCand] witnessGeo [] [])
            (mockPredict witnessPrims) "1 A St" []).cache).tag?
        = (value_address witnessPrims (constProviders [witnessCand] witnessGeo [] [])
            (mockPredict witnessPrims) "1 A St" []).tag? ∧
      (value_address witnessPrims (constProviders [witnessCand] witnessGeo [] [])
          (mockPredict witnessPrims) "1 A St"
          (value_address witnessPrims (constProviders [witnessCand] witnessGeo [] [])
            (mockPredict witnessPrims) "1 A St" []).cache).flag? = some true ∧
      (∀ (p : Payload) (et : String),
        (deliver p false et).body.cached = false ∧
        (deliver p true et).body.cached = true ∧
        (deliver p false et).etag = (deliver p true et).etag)) :=
  ⟨by with_unfolding_all decide,
    etag_precedes_transport witnessPrims (constProviders [witnessCand] witnessGeo [] [])
      "1 A St" [] (by with_unfolding_all decide)⟩
